import Mathlib

/-!
Verification development for the Google Places Insights tool
(`src/mastra/tools/google-places-insights-tool.ts`).

The embedding models the tool's `execute` function and its helpers:
the industry-preset merge (lines 226-238), the adaptive retry loop
(lines 240-345), result assembly (lines 347-395), and the
classification engine `generateBusinessIntelligence` (lines 400-486),
together with the retail/solo insight helpers (lines 489-518).

Conventions of the embedding:
* JS numbers are modelled as `ℚ`; `Math.PI` is modelled by `mathPI`,
  the exact rational value of the IEEE-754 double `Math.PI`.
* JS objects with optional fields become structures with `Option` fields.
* The network is modelled by a list of stubbed `ApiResponse`s, one per
  request the loop sends; wall-clock timestamps and the API key check are
  not modelled (no claim concerns them).
* String interpolation (`density.toFixed(2)` etc.) is rendered with
  `toString` on exact rationals; no claim inspects the formatted text.
-/

namespace GPlaces

/-- A circle location filter. The source's `latLng`/`place` center fields
are carried through every spread unchanged and are never read by the
algorithm, so only `radius` (meters) is modelled. -/
structure Circle where
  radius : ℚ
deriving DecidableEq, Repr

/-- A location filter. The source's `region`/`customArea` variants are
never read or written by the executor (it only touches `circle`), so only
the `circle` field is modelled. -/
structure LocationFilter where
  circle : Option Circle
deriving DecidableEq, Repr

/-- The type filter: four optional lists of type tags,
mirroring `typeFilterSchema` (source lines 33-41). -/
structure TypeFilter where
  includedTypes : Option (List String)
  excludedTypes : Option (List String)
  includedPrimaryTypes : Option (List String)
  excludedPrimaryTypes : Option (List String)
deriving DecidableEq, Repr

/-- The query filter: the fields of `context.filter` the algorithm reads.
`operatingStatus`, `priceLevels` and `ratingFilter` are carried through
unchanged and never read, so they are not modelled. -/
structure QueryFilter where
  locationFilter : Option LocationFilter
  typeFilter : TypeFilter
deriving DecidableEq, Repr

/-- The `industry` enum of `businessContext` (source lines 153-166). -/
inductive Industry where
  | RETAIL_GENERAL
  | FOOD_SERVICE
  | PROFESSIONAL_SERVICES
  | HEALTH_WELLNESS
  | HOSPITALITY
  | FINANCIAL_SERVICES
  | EDUCATION
  | AUTOMOTIVE
  | HOME_SERVICES
  | SOLO_PROFESSIONAL
  | TECH_SERVICES
  | CUSTOM
deriving DecidableEq, Repr

/-- The `analysisType` enum (source lines 144-150). -/
inductive AnalysisType where
  | MARKET_DENSITY
  | COMPETITOR_ANALYSIS
  | LOCATION_SUITABILITY
  | PRICE_ANALYSIS
  | CUSTOM
deriving DecidableEq, Repr

/-- The business context. Only `industry` is ever read by the algorithm
(`targetCustomers`, `businessModel`, `strategicGoals`, `budgetRange` are
copied opaquely into `metadata.strategicContext`), so only `industry`
is modelled. -/
structure BusinessContext where
  industry : Option Industry
deriving DecidableEq, Repr

/-- The requested insight kinds (source line 121). The loop forwards them
in each request body but never inspects them. -/
inductive InsightKind where
  | INSIGHT_COUNT
  | INSIGHT_PLACES
deriving DecidableEq, Repr

/-- The tool's input `context` (the fields `execute` reads). -/
structure Context where
  insights : List InsightKind
  filter : QueryFilter
  analysisType : Option AnalysisType
  businessContext : Option BusinessContext
deriving DecidableEq, Repr

/-- The table `BUSINESS_INTELLIGENCE_PRESETS` (source lines 49-100): a partial
`TypeFilter` per industry; `none` for a field the preset object does not
define, `none` for the whole industry when it has no preset (`CUSTOM`). -/
def BUSINESS_INTELLIGENCE_PRESETS : Industry → Option TypeFilter
  | .RETAIL_GENERAL => some
      { includedTypes := some ["store", "shopping_mall", "supermarket", "department_store", "convenience_store"]
        excludedTypes := some ["gas_station", "car_dealer"]
        includedPrimaryTypes := none
        excludedPrimaryTypes := none }
  | .FOOD_SERVICE => some
      { includedTypes := some ["cafe", "fast_food_restaurant", "meal_takeaway", "bar"]
        excludedTypes := some ["lodging", "gas_station"]
        includedPrimaryTypes := some ["restaurant"]
        excludedPrimaryTypes := none }
  | .PROFESSIONAL_SERVICES => some
      { includedTypes := some ["consultant", "real_estate_agency", "insurance_agency"]
        excludedTypes := none
        includedPrimaryTypes := some ["lawyer", "accounting", "dentist", "doctor"]
        excludedPrimaryTypes := none }
  | .HEALTH_WELLNESS => some
      { includedTypes := none
        excludedTypes := some ["lodging", "gas_station", "car_dealer"]
        includedPrimaryTypes := some ["gym", "spa", "beauty_salon", "physiotherapist", "hospital", "pharmacy"]
        excludedPrimaryTypes := none }
  | .HOSPITALITY => some
      { includedTypes := some ["bar", "night_club", "restaurant"]
        excludedTypes := some ["gas_station", "car_dealer"]
        includedPrimaryTypes := some ["hotel", "lodging"]
        excludedPrimaryTypes := none }
  | .FINANCIAL_SERVICES => some
      { includedTypes := some ["atm", "insurance_agency", "accounting"]
        excludedTypes := some ["gas_station", "restaurant", "lodging"]
        includedPrimaryTypes := some ["bank"]
        excludedPrimaryTypes := none }
  | .EDUCATION => some
      { includedTypes := some ["library", "book_store"]
        excludedTypes := some ["gas_station", "restaurant", "lodging"]
        includedPrimaryTypes := some ["school", "university"]
        excludedPrimaryTypes := none }
  | .AUTOMOTIVE => some
      { includedTypes := none
        excludedTypes := some ["restaurant", "lodging"]
        includedPrimaryTypes := some ["car_dealer", "car_rental", "car_repair", "gas_station"]
        excludedPrimaryTypes := none }
  | .HOME_SERVICES => some
      { includedTypes := some ["home_goods_store", "hardware_store"]
        excludedTypes := some ["restaurant", "lodging", "gas_station"]
        includedPrimaryTypes := some ["plumber", "electrician", "contractor"]
        excludedPrimaryTypes := none }
  | .SOLO_PROFESSIONAL => some
      { includedTypes := some ["consultant", "lawyer", "dentist", "doctor", "therapist", "coach"]
        excludedTypes := some ["restaurant", "lodging", "gas_station", "car_dealer"]
        includedPrimaryTypes := none
        excludedPrimaryTypes := none }
  | .TECH_SERVICES => some
      { includedTypes := some ["computer_store", "electronics_store", "internet_cafe"]
        excludedTypes := some ["restaurant", "lodging", "gas_station"]
        includedPrimaryTypes := some ["software_company"]
        excludedPrimaryTypes := none }
  | .CUSTOM => none

/-- One field of the JS object spread `{ ...existingTypeFilter, ...preset }`
(source lines 233-236): the preset's value wins whenever the preset object
defines the key; the existing filter's value survives only otherwise. -/
def spreadField (existing preset : Option (List String)) : Option (List String) :=
  match preset with
  | some l => some l
  | none => existing

/-- The spread `{ ...existingTypeFilter, ...preset }` (source lines
233-236), field by field. -/
def mergeTypeFilter (existing preset : TypeFilter) : TypeFilter :=
  { includedTypes := spreadField existing.includedTypes preset.includedTypes
    excludedTypes := spreadField existing.excludedTypes preset.excludedTypes
    includedPrimaryTypes := spreadField existing.includedPrimaryTypes preset.includedPrimaryTypes
    excludedPrimaryTypes := spreadField existing.excludedPrimaryTypes preset.excludedPrimaryTypes }

/-- The preset application producing `enhancedFilter`
(source lines 226-238): when `context.businessContext?.industry` is set
and is not `CUSTOM` and has a preset, the preset is spread OVER the
user's typeFilter. -/
def enhancedFilterOf (ctx : Context) : QueryFilter :=
  match ctx.businessContext with
  | some bc =>
    match bc.industry with
    | some ind =>
      if ind ≠ .CUSTOM then
        match BUSINESS_INTELLIGENCE_PRESETS ind with
        | some preset => { ctx.filter with typeFilter := mergeTypeFilter ctx.filter.typeFilter preset }
        | none => ctx.filter
      else ctx.filter
    | none => ctx.filter
  | none => ctx.filter

/-! ## The adaptive retry loop (source lines 240-345) -/

/-- The bound `maxAttempts` (source line 244). -/
def maxAttempts : ℕ := 3

/-- The fixed phrase of the capacity-exceeded signature
(source lines 267 and 336). -/
def capPhrase : String := "maximum number of allowed places"

/-- Whether `needle` is an initial segment of `haystack`. -/
def listStartsWith : List Char → List Char → Bool
  | [], _ => true
  | _ :: _, [] => false
  | n :: ns, h :: hs => n == h && listStartsWith ns hs

/-- Whether `needle` occurs contiguously inside `haystack`
(the semantics of JS `String.prototype.includes`). -/
def listContainsSub (needle : List Char) : List Char → Bool
  | [] => needle.isEmpty
  | h :: t => listStartsWith needle (h :: t) || listContainsSub needle t

/-- The check `body.includes(capPhrase)` (source lines 267 and 336). -/
def containsCapPhrase (body : String) : Bool :=
  listContainsSub capPhrase.toList body.toList

/-- The read `filter.locationFilter?.circle?.radius || 1000`
(source lines 271 and 369); JS `||` treats `0` as falsy. -/
def radiusOrDefault (f : QueryFilter) : ℚ :=
  match f.locationFilter with
  | some lf =>
    match lf.circle with
    | some c => if c.radius = 0 then 1000 else c.radius
    | none => 1000
  | none => 1000

/-- The filter update of both branches of the 429 handler
(source lines 299-308 and 312-321): spreads preserve every other field
and only `radius` changes. -/
def setCircleRadius (f : QueryFilter) (r : ℚ) : QueryFilter :=
  { f with locationFilter := some { circle := some { radius := r } } }

/-- The step `Math.floor(q * 0.25)` on an exact rational: `0.25` is the exact
dyadic `1/4`, so the result is `⌊q / 4⌋`, computed by floor division of
the numerator by four times the denominator. -/
def quarterFloor (q : ℚ) : ℚ := ((q.num.fdiv (4 * (q.den : ℤ)) : ℤ) : ℚ)

/-- The list `validPrimaryTypes` (source line 294). -/
def validPrimaryTypes : List String :=
  ["restaurant", "store", "hotel", "bank", "school", "gym", "spa",
   "beauty_salon", "lawyer", "accounting", "dentist", "doctor",
   "car_dealer", "car_rental", "car_repair", "gas_station",
   "plumber", "electrician", "contractor", "software_company"]

/-- The `correctedPreset` computation of the radius-floor branch
(source lines 280-297): map `fast_food` to `fast_food_restaurant` in
`includedTypes` and keep only `validPrimaryTypes` in
`includedPrimaryTypes`. In the source this value is stored in a local
variable that is never read afterwards. -/
def repairTypeFilter (tf : TypeFilter) : TypeFilter :=
  { tf with
    includedTypes := tf.includedTypes.map
      (List.map fun t => if t = "fast_food" then "fast_food_restaurant" else t)
    includedPrimaryTypes := tf.includedPrimaryTypes.map
      (List.filter fun t => validPrimaryTypes.contains t) }

/-- The raw place-insight entry: only its (optional) `place` identifier
field is read (source line 363). -/
structure PlaceInsight where
  place : Option String
deriving DecidableEq, Repr

/-- The decoded JSON body of a successful response: an optional count
(a numeric string in the API, modelled as the number it encodes) and an
optional `placeInsights` array. -/
structure RawData where
  count : Option ℕ
  placeInsights : Option (List PlaceInsight)
deriving DecidableEq, Repr

/-- One stubbed response of the remote service: either a decoded success
body or an error with HTTP status and body text. -/
inductive ApiResponse where
  | ok (data : RawData)
  | err (status : ℕ) (body : String)
deriving DecidableEq, Repr

/-- The loop's mutable state: `attempts` and `currentFilter`
(source lines 242-243). -/
structure LoopState where
  attempts : ℕ
  currentFilter : QueryFilter
deriving DecidableEq, Repr

/-- Outcome of one loop iteration on one response. -/
inductive StepResult where
  | success (data : RawData)
  | fatal (status : ℕ) (body : String)
  | retry (st : LoopState)
deriving DecidableEq, Repr

/-- One iteration of the `while` body (source lines 247-341) applied to
the response of the request it sent.

* `response.ok` → `data = await response.json(); break`.
* status 429 with the capacity phrase in the body (line 267):
  `attempts++`; `newRadius = Math.floor(currentRadius * 0.25)`; both the
  `newRadius < 50` branch and the other branch store `radius: newRadius`
  into `currentFilter` (lines 299-308 and 312-321) — the `newRadius < 50`
  branch additionally computes `repairTypeFilter` into a local
  (`correctedPreset`) that the source never uses, so the step does not
  depend on it; then `continue`.
* any other error: a `new Error(...: status ...: body)` is thrown
  (line 328) and lands in the `catch` (lines 335-340), which rethrows
  (fatal) iff `attempts >= maxAttempts` or the message — hence the body —
  does not contain the capacity phrase; otherwise `attempts++` and the
  loop continues with `currentFilter` unchanged. -/
def handleResponse (st : LoopState) : ApiResponse → StepResult
  | .ok data => .success data
  | .err status body =>
    if status = 429 ∧ containsCapPhrase body then
      let currentRadius := radiusOrDefault st.currentFilter
      let newRadius : ℚ := quarterFloor currentRadius
      .retry { attempts := st.attempts + 1
               currentFilter := setCircleRadius st.currentFilter newRadius }
    else
      if st.attempts ≥ maxAttempts ∨ ¬ containsCapPhrase body then
        .fatal status body
      else
        .retry { attempts := st.attempts + 1, currentFilter := st.currentFilter }

/-- Terminal outcome of the retry loop; `sent` records the filter carried
by each request actually sent, in order. `starved` is a model artifact:
the stubbed response list ran out while the loop would have sent another
request. -/
inductive ExecResult where
  | success (final : LoopState) (data : RawData) (sent : List QueryFilter)
  | fatal (status : ℕ) (body : String) (sent : List QueryFilter)
  | exhausted (sent : List QueryFilter)
  | starved (sent : List QueryFilter)
deriving DecidableEq, Repr

/-- The `while (attempts < maxAttempts)` loop (source lines 247-341) run
against a list of stubbed responses. Exiting the loop without data
corresponds to `exhausted` (the `throw` at source lines 343-345). -/
def runLoop (st : LoopState) (sent : List QueryFilter) : List ApiResponse → ExecResult
  | [] =>
    if st.attempts < maxAttempts then .starved sent else .exhausted sent
  | r :: rest =>
    if st.attempts < maxAttempts then
      match handleResponse st r with
      | .success data => .success st data (sent ++ [st.currentFilter])
      | .fatal status body => .fatal status body (sent ++ [st.currentFilter])
      | .retry st' => runLoop st' (sent ++ [st.currentFilter]) rest
    else .exhausted sent

/-! ## The classification engine `generateBusinessIntelligence`
(source lines 400-486) -/

/-- The constant `Math.PI`: the exact rational value of the IEEE-754 double nearest π
(the value JS computes with). -/
def mathPI : ℚ := 884279719003555 / 281474976710656

/-- The `competitionLevel` enum (source line 408). -/
inductive CompetitionLevel where
  | LOW
  | MODERATE
  | HIGH
  | SATURATED
deriving DecidableEq, Repr

/-- The line `const density = count / (Math.PI * Math.pow(radius / 1000, 2))`
(source line 406), in businesses per km². -/
def densityOf (count : ℕ) (radius : ℚ) : ℚ :=
  (count : ℚ) / (mathPI * (radius / 1000) ^ 2)

/-- The classification output (source lines 478-485). `marketDensity` is
the interpolated summary string; `toString` on exact rationals stands in
for `density.toFixed(2)` (no claim inspects the text). -/
structure BIResult where
  marketDensity : String
  competitionLevel : CompetitionLevel
  recommendations : List String
  riskFactors : Option (List String)
  opportunities : Option (List String)
  strategicInsights : Option (List String)
deriving DecidableEq, Repr

/-- The density-tier chain assigning `competitionLevel`
(source lines 415-436): `if`/`else if` with strict upper bounds. -/
def competitionLevelOf (density : ℚ) : CompetitionLevel :=
  if density < 1 then .LOW
  else if density < 5 then .MODERATE
  else if density < 15 then .HIGH
  else .SATURATED

/-- The `recommendations.push(...)` calls of the density-tier chain
(source lines 415-436), branch by branch with the same conditions. -/
def tierRecommendations (density : ℚ) : List String :=
  if density < 1 then
    ["Market opportunity exists with low competition",
     "Consider being a market pioneer in this area"]
  else if density < 5 then
    ["Balanced market with room for differentiation",
     "Focus on unique value proposition"]
  else if density < 15 then
    ["Highly competitive market - strong differentiation required"]
  else
    ["Market appears saturated - consider alternative locations"]

/-- The `riskFactors.push(...)` calls of the density-tier chain
(source lines 415-436). -/
def tierRiskFactors (density : ℚ) : List String :=
  if density < 1 then []
  else if density < 5 then []
  else if density < 15 then
    ["High competition may impact market share"]
  else
    ["Market saturation may limit growth potential",
     "High customer acquisition costs likely"]

/-- The `opportunities.push(...)` calls of the density-tier chain
(source lines 415-436). -/
def tierOpportunities (density : ℚ) : List String :=
  if density < 1 then ["First-mover advantage in underserved market"]
  else if density < 5 then []
  else if density < 15 then []
  else ["Consider consolidation or acquisition opportunities"]

/-- The `strategicInsights.push(...)` calls of the density-tier chain
(source lines 415-436). -/
def tierStrategicInsights (density : ℚ) : List String :=
  if density < 1 then []
  else if density < 5 then
    ["Market has healthy competition - focus on service quality"]
  else if density < 15 then
    ["Consider niche positioning or superior customer experience"]
  else []

/-- The industry block's `recommendations.push(...)` calls
(source lines 439-456): the `else if` chain on the industry tag is
rendered as a match (the tags are mutually exclusive). -/
def industryRecommendations (industry : Option Industry)
    (level : CompetitionLevel) : List String :=
  match industry with
  | some .RETAIL_GENERAL | some .FOOD_SERVICE =>
    if level = .HIGH then
      ["Focus on loyalty programs and customer retention"]
    else []
  | some .TECH_SERVICES => ["Focus on technology adoption and innovation"]
  | _ => []

/-- The industry block's `opportunities.push(...)` calls
(source lines 447-451). -/
def industryOpportunities (industry : Option Industry)
    (level : CompetitionLevel) : List String :=
  match industry with
  | some .SOLO_PROFESSIONAL | some .PROFESSIONAL_SERVICES =>
    if level = .LOW then
      ["Potential for premium pricing in underserved market"]
    else []
  | _ => []

/-- The industry block's `strategicInsights.push(...)` calls
(source lines 442-455). -/
def industryStrategicInsights (industry : Option Industry) : List String :=
  match industry with
  | some .RETAIL_GENERAL | some .FOOD_SERVICE =>
    ["Consider seasonal demand patterns for inventory planning"]
  | some .SOLO_PROFESSIONAL | some .PROFESSIONAL_SERVICES =>
    ["Build personal brand and professional network"]
  | some .TECH_SERVICES => ["Consider digital marketing and online presence"]
  | _ => []

/-- The `switch (analysisType)` block's `recommendations.push(...)`
calls (source lines 459-476). -/
def intentRecommendations (analysisType : AnalysisType)
    (level : CompetitionLevel) (density : ℚ) (count : ℕ) (radius : ℚ) :
    List String :=
  match analysisType with
  | .MARKET_DENSITY =>
    ["Market density: " ++ toString density ++ " businesses per km²"]
  | .COMPETITOR_ANALYSIS =>
    [toString count ++ " direct competitors identified in " ++
     toString radius ++ "m radius"]
  | .LOCATION_SUITABILITY =>
    if level = .LOW then
      ["Location shows good potential for new business entry"]
    else if level = .SATURATED then
      ["Consider alternative locations with less competition"]
    else []
  | _ => []

/-- The `switch (analysisType)` block's `riskFactors.push(...)` call
(source lines 463-468): competitor analysis adds a risk when
`count > 10`. -/
def intentRiskFactors (analysisType : AnalysisType) (count : ℕ) :
    List String :=
  match analysisType with
  | .COMPETITOR_ANALYSIS =>
    if count > 10 then
      ["High number of competitors may indicate market saturation"]
    else []
  | _ => []

/-- The return pattern `list.length > 0 ? list : undefined` (source
lines 482-484). -/
def omitIfEmpty (l : List String) : Option (List String) :=
  if l.length > 0 then some l else none

/-- The function `generateBusinessIntelligence` (source lines 400-486).
The source
fills the level and the four lists by pushing in one `if`/`else if`
chain on `density`, then appends industry-specific and
analysis-type-specific strings; each list is the concatenation of its
per-block contributions above, in push order. `riskFactors`,
`opportunities` and `strategicInsights` are returned as `undefined`
(`none`) when empty; `recommendations` and `competitionLevel` are
returned unconditionally (source lines 478-485). -/
def generateBusinessIntelligence (count : ℕ) (radius : ℚ)
    (analysisType : AnalysisType) (businessContext : Option BusinessContext) :
    BIResult :=
  let density := densityOf count radius
  let level := competitionLevelOf density
  let industry := businessContext.bind (fun bc => bc.industry)
  { marketDensity :=
      toString density ++ " businesses per km² (" ++ toString count ++
      " total in " ++ toString radius ++ "m radius)"
    competitionLevel := level
    recommendations :=
      tierRecommendations density ++ industryRecommendations industry level ++
      intentRecommendations analysisType level density count radius
    riskFactors :=
      omitIfEmpty (tierRiskFactors density ++ intentRiskFactors analysisType count)
    opportunities :=
      omitIfEmpty (tierOpportunities density ++ industryOpportunities industry level)
    strategicInsights :=
      omitIfEmpty (tierStrategicInsights density ++ industryStrategicInsights industry) }

/-! ## Result assembly (source lines 347-395, 489-518) -/

/-- The `generateRetailInsights` output shape (source lines 492-501). -/
structure RetailMarketerInsights where
  targetAudienceDensity : String
  competitivePositioning : String
  marketingRecommendations : List String
deriving DecidableEq, Repr

/-- The function `generateRetailInsights` (source lines 489-502);
`parseInt(data.count || '0')` substitutes 0 for a missing count. -/
def generateRetailInsights (data : RawData) : RetailMarketerInsights :=
  let count := data.count.getD 0
  { targetAudienceDensity :=
      if count > 0 then
        "High customer density area (" ++ toString count ++ " similar businesses)"
      else "Low customer density area"
    competitivePositioning :=
      if count > 10 then "Highly competitive - focus on differentiation"
      else "Low competition - opportunity for market capture"
    marketingRecommendations :=
      ["Develop targeted local marketing campaigns",
       "Consider partnerships with complementary businesses",
       "Build customer loyalty programs",
       "Leverage social media for local engagement"] }

/-- The `generateSoloProfessionalInsights` output shape (source lines
508-517). -/
structure SoloProfessionalInsights where
  marketGapAnalysis : String
  clientAcquisitionPotential : String
  serviceDifferentiation : List String
deriving DecidableEq, Repr

/-- The function `generateSoloProfessionalInsights` (source lines
505-518). -/
def generateSoloProfessionalInsights (data : RawData) : SoloProfessionalInsights :=
  let count := data.count.getD 0
  { marketGapAnalysis :=
      if count < 3 then "Significant market gap - high opportunity"
      else "Established market with moderate competition"
    clientAcquisitionPotential :=
      if count < 5 then "High potential for new client acquisition"
      else "Focus on client retention and referrals"
    serviceDifferentiation :=
      ["Develop specialized service offerings",
       "Build personal brand and credibility",
       "Create referral networks",
       "Offer premium consultation services"] }

/-- The `result.metadata` shape (source lines 349-353, 378-380, 385-386);
the wall-clock `timestamp` string is not modelled. -/
structure Metadata where
  analysisType : AnalysisType
  industry : Option Industry
  searchRadius : Option ℚ
  filterCriteria : QueryFilter
  strategicContext : Option BusinessContext
deriving DecidableEq, Repr

/-- The assembled tool result (source lines 348-395). `places` keeps one
entry per `placeInsights` element, each being the entry's (optional)
`place` field. -/
structure ToolResult where
  count : Option ℕ
  places : Option (List (Option String))
  businessIntelligence : Option BIResult
  metadata : Metadata
  retailMarketerInsights : Option RetailMarketerInsights
  soloProfessionalInsights : Option SoloProfessionalInsights
deriving DecidableEq, Repr

/-- The guard `if (enhancedFilter.locationFilter?.circle?.radius)` (source
lines 378-380): the circle radius when present and truthy (nonzero). -/
def truthyCircleRadius (f : QueryFilter) : Option ℚ :=
  match f.locationFilter with
  | some lf =>
    match lf.circle with
    | some c => if c.radius = 0 then none else some c.radius
    | none => none
  | none => none

/-- Assembly of the returned object after the loop succeeded
(source lines 347-395). Every read is from `enhancedFilter` — the
pre-loop, preset-merged filter — never from the loop's `currentFilter`:
* `metadata.filterCriteria = enhancedFilter` (line 351);
* classification count is `parseInt(data.count || '0')` (line 368);
* classification radius is
  `enhancedFilter.locationFilter?.circle?.radius || 1000` (line 369);
* `metadata.searchRadius` is set, inside the non-CUSTOM branch only, when
  `enhancedFilter.locationFilter?.circle?.radius` is truthy (lines 378-380). -/
def assembleResult (ctx : Context) (enhancedFilter : QueryFilter)
    (data : RawData) : ToolResult :=
  let biAndRadius : Option BIResult × Option ℚ :=
    match ctx.analysisType with
    | some aty =>
      if aty ≠ .CUSTOM then
        let count := data.count.getD 0
        let radius := radiusOrDefault enhancedFilter
        (some (generateBusinessIntelligence count radius aty ctx.businessContext),
         truthyCircleRadius enhancedFilter)
      else (none, none)
    | none => (none, none)
  let industryPart : Option Industry × Option BusinessContext ×
      Option RetailMarketerInsights × Option SoloProfessionalInsights :=
    match ctx.businessContext with
    | some bc =>
      match bc.industry with
      | some ind =>
        (some ind, some bc,
         (if ind = .RETAIL_GENERAL ∨ ind = .FOOD_SERVICE then
            some (generateRetailInsights data) else none),
         (if ind = .SOLO_PROFESSIONAL ∨ ind = .PROFESSIONAL_SERVICES then
            some (generateSoloProfessionalInsights data) else none))
      | none => (none, none, none, none)
    | none => (none, none, none, none)
  { count := data.count
    places := data.placeInsights.map (fun l => l.map fun i => i.place)
    businessIntelligence := biAndRadius.1
    metadata :=
      { analysisType := ctx.analysisType.getD .CUSTOM
        industry := industryPart.1
        searchRadius := biAndRadius.2
        filterCriteria := enhancedFilter
        strategicContext := industryPart.2.1 }
    retailMarketerInsights := industryPart.2.2.1
    soloProfessionalInsights := industryPart.2.2.2 }

/-- Terminal outcome of one whole `execute` invocation; `sentFilters` is
the trace of filters carried by the requests actually sent. -/
inductive ToolOutcome where
  | ok (result : ToolResult) (sentFilters : List QueryFilter)
  | fatalError (status : ℕ) (body : String) (sentFilters : List QueryFilter)
  | retriesExhausted (sentFilters : List QueryFilter)
  | noStubResponse (sentFilters : List QueryFilter)
deriving DecidableEq, Repr

/-- The whole `execute` body (source lines 220-396) after the API-key
check, run against a list of stubbed responses: build `enhancedFilter`,
run the retry loop from `attempts = 0`, `currentFilter = enhancedFilter`,
then assemble the result from the successful response's data and the
(unchanged) `enhancedFilter`. -/
def executeModel (ctx : Context) (responses : List ApiResponse) : ToolOutcome :=
  let enhancedFilter := enhancedFilterOf ctx
  match runLoop { attempts := 0, currentFilter := enhancedFilter } [] responses with
  | .success _ data sent => .ok (assembleResult ctx enhancedFilter data) sent
  | .fatal status body sent => .fatalError status body sent
  | .exhausted sent => .retriesExhausted sent
  | .starved sent => .noStubResponse sent

/-! ## Concrete fixtures used by counterexamples and witnesses -/

/-- A user filter supplying `includedTypes = ["cafe"]` and a 1000 m circle. -/
def userFilter1 : QueryFilter :=
  { locationFilter := some { circle := some { radius := 1000 } }
    typeFilter :=
      { includedTypes := some ["cafe"]
        excludedTypes := none
        includedPrimaryTypes := none
        excludedPrimaryTypes := none } }

/-- An invocation with the user filter above and the HOSPITALITY preset. -/
def ctx1 : Context :=
  { insights := [.INSIGHT_COUNT]
    filter := userFilter1
    analysisType := some .MARKET_DENSITY
    businessContext := some { industry := some .HOSPITALITY } }

/-! ## C1 -/

/-- C1 (counterexample). The claim says the user's non-empty list wins
over the preset's; on the code the JS spread puts the preset LAST, so the
preset's list wins: merging a user filter with `includedTypes = ["cafe"]`
and the `HOSPITALITY` preset yields the preset's
`["bar", "night_club", "restaurant"]`, not `["cafe"]`. -/
theorem C1_counterexample :
    (enhancedFilterOf ctx1).typeFilter.includedTypes ≠ some ["cafe"] ∧
    (enhancedFilterOf ctx1).typeFilter.includedTypes =
      some ["bar", "night_club", "restaurant"] ∧
    ctx1.filter.typeFilter.includedTypes = some ["cafe"] := by
  decide

/-- C1 (amended). For every user filter and every known industry preset,
the effective TypeFilter takes each of the four lists from the PRESET
whenever the preset defines that field (even when the user supplied the
list non-empty), and from the user's filter only when the preset omits
the field; the two lists are never concatenated. -/
theorem C1_preset_overrides_user (f : QueryFilter)
    (insights : List InsightKind) (aty : Option AnalysisType)
    (ind : Industry) (p : TypeFilter)
    (hp : BUSINESS_INTELLIGENCE_PRESETS ind = some p) :
    (enhancedFilterOf
        { insights := insights, filter := f, analysisType := aty,
          businessContext := some { industry := some ind } }).typeFilter =
      mergeTypeFilter f.typeFilter p ∧
    (∀ l, p.includedTypes = some l →
      (mergeTypeFilter f.typeFilter p).includedTypes = some l) ∧
    (p.includedTypes = none →
      (mergeTypeFilter f.typeFilter p).includedTypes =
        f.typeFilter.includedTypes) ∧
    (∀ l, p.excludedTypes = some l →
      (mergeTypeFilter f.typeFilter p).excludedTypes = some l) ∧
    (p.excludedTypes = none →
      (mergeTypeFilter f.typeFilter p).excludedTypes =
        f.typeFilter.excludedTypes) ∧
    (∀ l, p.includedPrimaryTypes = some l →
      (mergeTypeFilter f.typeFilter p).includedPrimaryTypes = some l) ∧
    (p.includedPrimaryTypes = none →
      (mergeTypeFilter f.typeFilter p).includedPrimaryTypes =
        f.typeFilter.includedPrimaryTypes) ∧
    (∀ l, p.excludedPrimaryTypes = some l →
      (mergeTypeFilter f.typeFilter p).excludedPrimaryTypes = some l) ∧
    (p.excludedPrimaryTypes = none →
      (mergeTypeFilter f.typeFilter p).excludedPrimaryTypes =
        f.typeFilter.excludedPrimaryTypes) := by
  have hne : ind ≠ Industry.CUSTOM := by
    intro h
    subst h
    simp [BUSINESS_INTELLIGENCE_PRESETS] at hp
  refine ⟨?_, ?_, ?_, ?_, ?_, ?_, ?_, ?_, ?_⟩
  · simp [enhancedFilterOf, hne, hp]
  all_goals
    first
    | (intro l hl; simp [mergeTypeFilter, spreadField, hl])
    | (intro hl; simp [mergeTypeFilter, spreadField, hl])

/-- C1 (witness): the amended theorem at the concrete `ctx1`:
the HOSPITALITY preset's `includedTypes` wins. -/
theorem C1_preset_overrides_user_witness :
    (enhancedFilterOf ctx1).typeFilter.includedTypes =
      some ["bar", "night_club", "restaurant"] := by
  have h := C1_preset_overrides_user userFilter1 [InsightKind.INSIGHT_COUNT]
    (some AnalysisType.MARKET_DENSITY) Industry.HOSPITALITY
    { includedTypes := some ["bar", "night_club", "restaurant"]
      excludedTypes := some ["gas_station", "car_dealer"]
      includedPrimaryTypes := some ["hotel", "lodging"]
      excludedPrimaryTypes := none } rfl
  exact (congrArg TypeFilter.includedTypes h.1).trans (h.2.1 _ rfl)

/-! ## C2 -/

/-- A filter whose circle radius is 100 m (so the next capacity retry
computes `newRadius = floor(100 * 0.25) = 25 < 50`). -/
def filter100 : QueryFilter := setCircleRadius userFilter1 100

/-- C2 (code bug). The claim (and the source's own
`// Allow minimum radius of 50 meters` comment) requires the radius to be
clamped to exactly 50 when `floor(currentRadius * 0.25)` drops below 50;
but the `newRadius < 50` branch of the source stores `radius: newRadius`
unchanged, so from a 100 m radius one capacity-exceeded response yields a
next-attempt radius of 25 m — strictly below the floor. -/
theorem C2_radius_floor_not_clamped :
    handleResponse { attempts := 0, currentFilter := filter100 }
        (.err 429 capPhrase) =
      .retry { attempts := 1, currentFilter := setCircleRadius filter100 25 } ∧
    (25 : ℚ) < 50 ∧ setCircleRadius filter100 25 ≠ setCircleRadius filter100 50 := by
  decide

/-! ## C3 -/

/-- A filter carrying the deprecated `fast_food` tag and an invalid
primary type, with a 100 m circle so a capacity retry reaches the
radius-floor branch. -/
def ffFilter : QueryFilter :=
  { locationFilter := some { circle := some { radius := 100 } }
    typeFilter :=
      { includedTypes := some ["fast_food"]
        excludedTypes := none
        includedPrimaryTypes := some ["restaurant", "bogus_type"]
        excludedPrimaryTypes := none } }

/-- C3 (code bug). When the radius floor is reached, the source computes
the repaired filter (`correctedPreset`, modelled by `repairTypeFilter`)
but never assigns it to `currentFilter`: the next attempt is sent with
the typeFilter unchanged (still carrying `fast_food` and the invalid
primary type), although the repair would have changed it. -/
theorem C3_repaired_filter_never_sent :
    handleResponse { attempts := 0, currentFilter := ffFilter }
        (.err 429 capPhrase) =
      .retry { attempts := 1, currentFilter := setCircleRadius ffFilter 25 } ∧
    (setCircleRadius ffFilter 25).typeFilter = ffFilter.typeFilter ∧
    repairTypeFilter ffFilter.typeFilter =
      { includedTypes := some ["fast_food_restaurant"]
        excludedTypes := none
        includedPrimaryTypes := some ["restaurant"]
        excludedPrimaryTypes := none } ∧
    repairTypeFilter ffFilter.typeFilter ≠ ffFilter.typeFilter := by
  decide

/-! ## C4 -/

/-- The result carried by a successful outcome, if any. -/
def okResultOf : ToolOutcome → Option ToolResult
  | .ok r _ => some r
  | _ => none

/-- The trace of filters sent, for any outcome. -/
def sentFiltersOf : ToolOutcome → List QueryFilter
  | .ok _ s => s
  | .fatalError _ _ s => s
  | .retriesExhausted s => s
  | .noStubResponse s => s

/-- Any successful invocation's result is assembled from the pre-loop
`enhancedFilter`, whatever the loop did to `currentFilter`. -/
theorem executeModel_ok_result (ctx : Context) (rs : List ApiResponse)
    (result : ToolResult) (sent : List QueryFilter)
    (h : executeModel ctx rs = .ok result sent) :
    ∃ data, result = assembleResult ctx (enhancedFilterOf ctx) data := by
  simp only [executeModel] at h
  cases hr : runLoop { attempts := 0, currentFilter := enhancedFilterOf ctx } [] rs <;>
    rw [hr] at h <;> simp at h
  case success final data s => exact ⟨data, h.1.symm⟩

/-- Any `searchRadius` reported in metadata is the truthy circle radius
of the filter the assembly was given. -/
theorem assembleResult_searchRadius_truthy (ctx : Context) (f : QueryFilter)
    (data : RawData) (r : ℚ)
    (h : (assembleResult ctx f data).metadata.searchRadius = some r) :
    truthyCircleRadius f = some r := by
  simp only [assembleResult] at h
  cases hat : ctx.analysisType <;> rw [hat] at h <;> simp at h
  case some aty =>
    by_cases hc : aty = AnalysisType.CUSTOM
    · simp [hc] at h
    · simpa [hc] using h

/-- An invocation with a 1000 m circle, MARKET_DENSITY analysis and no
industry context. -/
def ctx4 : Context :=
  { insights := [.INSIGHT_COUNT]
    filter := userFilter1
    analysisType := some .MARKET_DENSITY
    businessContext := none }

/-- A successful body carrying a count of 5. -/
def data4 : RawData := { count := some 5, placeInsights := none }

/-- One capacity rejection, then success: the loop shrinks the radius
from 1000 m to 250 m before the attempt that succeeds. -/
def rs4 : List ApiResponse := [.err 429 capPhrase, .ok data4]

/-- C4 (counterexample). After a capacity retry shrank the radius to
250 m, the returned `metadata.searchRadius` is 1000 (the original
radius), the returned `metadata.filterCriteria` is the original filter,
and classification is fed the original 1000 m radius — not the last
attempted 250 m — contradicting the claim that metadata carries the
filter/radius actually used after adaptation. -/
theorem C4_counterexample :
    (sentFiltersOf (executeModel ctx4 rs4)).map radiusOrDefault = [1000, 250] ∧
    (okResultOf (executeModel ctx4 rs4)).map (fun r => r.metadata.searchRadius) =
      some (some 1000) ∧
    (okResultOf (executeModel ctx4 rs4)).map (fun r => r.metadata.filterCriteria) =
      some ctx4.filter ∧
    (okResultOf (executeModel ctx4 rs4)).map (fun r => r.businessIntelligence) =
      some (some (generateBusinessIntelligence 5 1000 .MARKET_DENSITY none)) ∧
    ((1000 : ℚ) ≠ 250) := by
  refine ⟨by decide, by decide, by decide, rfl, by decide⟩

/-- C4 (amended). Metadata carries the filter and radius of the pre-loop
(preset-merged, pre-adaptation) filter, not the last filter/radius
attempted: every successful result is assembled from `enhancedFilterOf
ctx`, its `metadata.filterCriteria` is that filter, and any reported
`metadata.searchRadius` is that filter's circle radius. -/
theorem C4_metadata_uses_preloop_filter (ctx : Context)
    (rs : List ApiResponse) (result : ToolResult) (sent : List QueryFilter)
    (h : executeModel ctx rs = .ok result sent) :
    (∃ data, result = assembleResult ctx (enhancedFilterOf ctx) data) ∧
    result.metadata.filterCriteria = enhancedFilterOf ctx ∧
    (∀ r, result.metadata.searchRadius = some r →
      truthyCircleRadius (enhancedFilterOf ctx) = some r) := by
  obtain ⟨data, hd⟩ := executeModel_ok_result ctx rs result sent h
  subst hd
  exact ⟨⟨data, rfl⟩, rfl,
    fun r hr => assembleResult_searchRadius_truthy ctx (enhancedFilterOf ctx) data r hr⟩

/-- C4 (witness): the amended theorem applied to the concrete shrinking
run `rs4`: the reported radius is the original 1000 m circle radius. -/
theorem C4_metadata_uses_preloop_filter_witness :
    truthyCircleRadius (enhancedFilterOf ctx4) = some 1000 := by
  have h := C4_metadata_uses_preloop_filter ctx4 rs4
    (assembleResult ctx4 (enhancedFilterOf ctx4) data4)
    [enhancedFilterOf ctx4, setCircleRadius (enhancedFilterOf ctx4) 250]
    rfl
  exact h.2.2 1000 rfl

/-! ## C5 -/

/-- An invocation with MARKET_DENSITY analysis and no industry context. -/
def ctx5 : Context :=
  { insights := [.INSIGHT_COUNT]
    filter := userFilter1
    analysisType := some .MARKET_DENSITY
    businessContext := none }

/-- A successful body with the count field absent. -/
def data5 : RawData := { count := none, placeInsights := none }

/-- C5 (counterexample). On a response with no count field the result's
count is indeed absent, but classification is NOT skipped: the code runs
the engine with `parseInt(data.count || '0') = 0`, so the caller does
receive a businessIntelligence object. -/
theorem C5_counterexample :
    (okResultOf (executeModel ctx5 [.ok data5])).map (fun r => r.count) =
      some none ∧
    (okResultOf (executeModel ctx5 [.ok data5])).map
        (fun r => r.businessIntelligence) =
      some (some (generateBusinessIntelligence 0 1000 .MARKET_DENSITY none)) := by
  exact ⟨by decide, rfl⟩

/-- C5 (amended). When the count field is absent the result's count is
absent ("unknown"), but for every non-CUSTOM analysis type the engine is
still run with the substituted count 0, and its output is returned as the
businessIntelligence object. -/
theorem C5_absent_count_still_classifies (ctx : Context) (f : QueryFilter)
    (data : RawData) (aty : AnalysisType)
    (h1 : data.count = none) (h2 : ctx.analysisType = some aty)
    (h3 : aty ≠ .CUSTOM) :
    (assembleResult ctx f data).count = none ∧
    (assembleResult ctx f data).businessIntelligence =
      some (generateBusinessIntelligence 0 (radiusOrDefault f) aty
        ctx.businessContext) := by
  constructor
  · simpa [assembleResult] using h1
  · simp [assembleResult, h2, h3, h1]

/-- C5 (witness): the amended theorem at the concrete `ctx5`, `data5`. -/
theorem C5_absent_count_still_classifies_witness :
    (assembleResult ctx5 ctx5.filter data5).count = none ∧
    (assembleResult ctx5 ctx5.filter data5).businessIntelligence =
      some (generateBusinessIntelligence 0 (radiusOrDefault ctx5.filter)
        .MARKET_DENSITY none) :=
  C5_absent_count_still_classifies ctx5 ctx5.filter data5 .MARKET_DENSITY
    rfl rfl (by decide)

/-! ## C6 -/

/-- C6 (confirmed). For every count and every radius in [1, 50000], the
classification's density is `count / (π · (radius/1000)²)` (with π the
JS `Math.PI` value), it is non-negative, and the competition tier is
assigned by left-closed bands: `[0,1) → LOW`, `[1,5) → MODERATE`,
`[5,15) → HIGH`, `[15,∞) → SATURATED`; density exactly 1 gives MODERATE,
not LOW. -/
theorem C6_density_bands (count : ℕ) (radius : ℚ) (aty : AnalysisType)
    (bc : Option BusinessContext)
    (h1 : 1 ≤ radius) (h2 : radius ≤ 50000) :
    0 ≤ densityOf count radius ∧
    densityOf count radius = (count : ℚ) / (mathPI * (radius / 1000) ^ 2) ∧
    (generateBusinessIntelligence count radius aty bc).competitionLevel =
      competitionLevelOf (densityOf count radius) ∧
    (densityOf count radius < 1 →
      (generateBusinessIntelligence count radius aty bc).competitionLevel = .LOW) ∧
    (1 ≤ densityOf count radius → densityOf count radius < 5 →
      (generateBusinessIntelligence count radius aty bc).competitionLevel = .MODERATE) ∧
    (5 ≤ densityOf count radius → densityOf count radius < 15 →
      (generateBusinessIntelligence count radius aty bc).competitionLevel = .HIGH) ∧
    (15 ≤ densityOf count radius →
      (generateBusinessIntelligence count radius aty bc).competitionLevel = .SATURATED) ∧
    (densityOf count radius = 1 →
      (generateBusinessIntelligence count radius aty bc).competitionLevel = .MODERATE) := by
  have hlevel : (generateBusinessIntelligence count radius aty bc).competitionLevel =
      competitionLevelOf (densityOf count radius) := rfl
  have hpi : (0 : ℚ) < mathPI := by norm_num [mathPI]
  have hnonneg : 0 ≤ densityOf count radius := by
    unfold densityOf
    positivity
  refine ⟨hnonneg, rfl, hlevel, ?_, ?_, ?_, ?_, ?_⟩ <;>
    rw [hlevel] <;> unfold competitionLevelOf <;> intros <;> split_ifs <;>
    first | rfl | linarith

/-- C6 (witness): count 20 in a 1000 m circle has density 20/π ≈ 6.37,
inside [5, 15), so the tier is HIGH. -/
theorem C6_density_bands_witness :
    (5 : ℚ) ≤ densityOf 20 1000 ∧ densityOf 20 1000 < 15 ∧
    (generateBusinessIntelligence 20 1000 .MARKET_DENSITY none).competitionLevel =
      .HIGH := by
  have h5 : (5 : ℚ) ≤ densityOf 20 1000 := by
    norm_num [densityOf, mathPI]
  have h15 : densityOf 20 1000 < 15 := by
    norm_num [densityOf, mathPI]
  exact ⟨h5, h15,
    (C6_density_bands 20 1000 .MARKET_DENSITY none (by norm_num)
      (by norm_num)).2.2.2.2.2.1 h5 h15⟩

/-! ## C7 -/

/-- An invocation with no analysis and no industry context (the parts
irrelevant to retry behaviour). -/
def ctx7 : Context :=
  { insights := [.INSIGHT_COUNT]
    filter := userFilter1
    analysisType := none
    businessContext := none }

/-- A 500-style error body that happens to contain the capacity phrase. -/
def body7 : String :=
  "Internal error: the maximum number of allowed places was exceeded"

/-- A successful body carrying a count of 3. -/
def data7 : RawData := { count := some 3, placeInsights := none }

/-- C7 (counterexample). A 500 response does not match the
capacity-exceeded signature (status 429 plus phrase), yet when its body
contains the phrase the `catch` block swallows the thrown error and the
executor retries: after `[500-with-phrase, success]` the invocation
succeeds having sent two requests, instead of aborting fatally after the
first attempt. -/
theorem C7_counterexample :
    ((500 : ℕ) ≠ 429) ∧ containsCapPhrase body7 = true ∧
    executeModel ctx7 [.err 500 body7, .ok data7] =
      .ok (assembleResult ctx7 userFilter1 data7) [userFilter1, userFilter1] := by
  exact ⟨by decide, by decide, rfl⟩

/-- C7 (amended). An error response aborts the executor fatally with no
retry exactly when its BODY does not contain the capacity phrase
(whatever the status); a non-429 error whose body does contain the
phrase is instead retried with `attempts + 1` and an unchanged filter. -/
theorem C7_fatal_iff_body_lacks_phrase (st : LoopState) (status : ℕ)
    (body : String) (h : st.attempts < maxAttempts) :
    (containsCapPhrase body = false →
      handleResponse st (.err status body) = .fatal status body) ∧
    (status ≠ 429 → containsCapPhrase body = true →
      handleResponse st (.err status body) =
        .retry { attempts := st.attempts + 1, currentFilter := st.currentFilter }) := by
  have h3 : ¬ st.attempts ≥ maxAttempts := Nat.not_le.mpr h
  constructor
  · intro hb
    simp [handleResponse, hb]
  · intro hs hb
    simp [handleResponse, hs, hb, h3]

/-- C7 (witness): the amended theorem at attempts 0 — a plain 500 with
body "boom" is fatal; a 500 whose body contains the phrase is retried. -/
theorem C7_fatal_iff_body_lacks_phrase_witness :
    handleResponse { attempts := 0, currentFilter := userFilter1 }
        (.err 500 "boom") = .fatal 500 "boom" ∧
    handleResponse { attempts := 0, currentFilter := userFilter1 }
        (.err 500 body7) =
      .retry { attempts := 1, currentFilter := userFilter1 } :=
  ⟨(C7_fatal_iff_body_lacks_phrase
      { attempts := 0, currentFilter := userFilter1 } 500 "boom"
      (by decide)).1 (by decide),
   (C7_fatal_iff_body_lacks_phrase
      { attempts := 0, currentFilter := userFilter1 } 500 body7
      (by decide)).2 (by decide) (by decide)⟩

/-! ## C8 -/

/-- A body with two place-insight entries, the second missing its
identifier field. -/
def data8 : RawData :=
  { count := some 2
    placeInsights := some [{ place := some "places/a" }, { place := none }] }

/-- An invocation with no analysis and no industry context. -/
def ctx8 : Context :=
  { insights := [.INSIGHT_PLACES]
    filter := userFilter1
    analysisType := none
    businessContext := none }

/-- C8 (counterexample). `placeInsights.map(insight => insight.place)`
keeps an `undefined` element for an entry missing the identifier field:
the entry is NOT dropped (the list still has two elements), contradicting
the claim that such entries are removed from the returned places list. -/
theorem C8_counterexample :
    (assembleResult ctx8 userFilter1 data8).places =
      some [some "places/a", none] ∧
    (assembleResult ctx8 userFilter1 data8).places ≠ some [some "places/a"] ∧
    ((assembleResult ctx8 userFilter1 data8).places.map List.length) = some 2 := by
  decide

/-- C8 (amended). For every response with a places array, each entry is
mapped to its identifier field; an entry missing the field yields an
`undefined` element that remains in the list (the result has exactly one
element per entry — nothing is dropped), and the parse of the whole
response does not fail. -/
theorem C8_missing_place_kept_as_undefined (ctx : Context) (f : QueryFilter)
    (data : RawData) (l : List PlaceInsight)
    (h : data.placeInsights = some l) :
    (assembleResult ctx f data).places = some (l.map fun i => i.place) ∧
    ((assembleResult ctx f data).places.map List.length) = some l.length := by
  constructor <;> simp [assembleResult, h]

/-- C8 (witness): the amended theorem at the concrete `data8`. -/
theorem C8_missing_place_kept_as_undefined_witness :
    (assembleResult ctx8 userFilter1 data8).places =
      some ([{ place := some "places/a" }, { place := none }].map
        fun i : PlaceInsight => i.place) ∧
    ((assembleResult ctx8 userFilter1 data8).places.map List.length) =
      some ([{ place := some "places/a" }, { place := none }] :
        List PlaceInsight).length :=
  C8_missing_place_kept_as_undefined ctx8 userFilter1 data8 _ rfl

/-! ## C9 -/

/-- C9 (counterexample). With count 0 in a 1000 m circle (tier LOW,
MARKET_DENSITY intent, no industry) the risk and strategic-insight lists
end up empty, and the result OMITS them (`undefined`) instead of
returning them as present-but-empty lists. -/
theorem C9_counterexample :
    (generateBusinessIntelligence 0 1000 .MARKET_DENSITY none).riskFactors =
      none ∧
    (generateBusinessIntelligence 0 1000 .MARKET_DENSITY none).strategicInsights =
      none := by
  have hd : densityOf 0 1000 = 0 := by
    unfold densityOf
    norm_num
  constructor <;>
    simp [generateBusinessIntelligence, hd, omitIfEmpty, tierRiskFactors,
      intentRiskFactors, tierStrategicInsights, industryStrategicInsights]

/-- C9 (amended). `recommendations` is always present and non-empty; the
other three lists (`riskFactors`, `opportunities`, `strategicInsights`)
are omitted (`undefined`) exactly when they end up empty — they are never
present as empty lists. -/
theorem C9_empty_lists_omitted (count : ℕ) (radius : ℚ)
    (aty : AnalysisType) (bc : Option BusinessContext) :
    (generateBusinessIntelligence count radius aty bc).recommendations ≠ [] ∧
    (generateBusinessIntelligence count radius aty bc).riskFactors ≠ some [] ∧
    (generateBusinessIntelligence count radius aty bc).opportunities ≠ some [] ∧
    (generateBusinessIntelligence count radius aty bc).strategicInsights ≠ some [] := by
  have homit : ∀ l : List String, omitIfEmpty l ≠ some [] := by
    intro l
    unfold omitIfEmpty
    split_ifs with hl
    · intro he
      rw [Option.some.injEq] at he
      subst he
      simp at hl
    · simp
  refine ⟨?_, homit _, homit _, homit _⟩
  have hbase : tierRecommendations (densityOf count radius) ≠ [] := by
    unfold tierRecommendations
    split_ifs <;> simp
  simp only [generateBusinessIntelligence]
  intro he
  rw [List.append_assoc] at he
  exact hbase (List.append_eq_nil.mp he).1

/-! ## C10 -/

/-- With `analysisType = CUSTOM`, the assembly never produces a
businessIntelligence object or a `metadata.searchRadius`. -/
theorem assembleResult_custom (ctx : Context) (f : QueryFilter)
    (data : RawData) (hat : ctx.analysisType = some .CUSTOM) :
    (assembleResult ctx f data).businessIntelligence = none ∧
    (assembleResult ctx f data).metadata.searchRadius = none := by
  constructor <;> simp [assembleResult, hat]

/-- C10 (confirmed). Every invocation with `analysisType = CUSTOM` that
returns a result returns it with no businessIntelligence object and no
`metadata.searchRadius`, whatever count and places the service returned:
the classification block runs only for non-CUSTOM analysis types. -/
theorem C10_custom_skips_classification (ctx : Context)
    (rs : List ApiResponse) (result : ToolResult) (sent : List QueryFilter)
    (hat : ctx.analysisType = some .CUSTOM)
    (h : executeModel ctx rs = .ok result sent) :
    result.businessIntelligence = none ∧
    result.metadata.searchRadius = none := by
  obtain ⟨data, hd⟩ := executeModel_ok_result ctx rs result sent h
  subst hd
  exact assembleResult_custom ctx (enhancedFilterOf ctx) data hat

/-- An invocation with `analysisType = CUSTOM`. -/
def ctx10 : Context :=
  { insights := [.INSIGHT_COUNT]
    filter := userFilter1
    analysisType := some .CUSTOM
    businessContext := none }

/-- A successful body with a count and a places array. -/
def data10 : RawData :=
  { count := some 7, placeInsights := some [{ place := some "places/z" }] }

/-- C10 (witness): the theorem at a concrete CUSTOM invocation whose
response carried both a count and places. -/
theorem C10_custom_skips_classification_witness :
    (assembleResult ctx10 userFilter1 data10).businessIntelligence = none ∧
    (assembleResult ctx10 userFilter1 data10).metadata.searchRadius = none :=
  C10_custom_skips_classification ctx10 [.ok data10]
    (assembleResult ctx10 userFilter1 data10) [userFilter1] rfl rfl

end GPlaces
